import Mathlib

/-!
Shallow embedding of the posture-assessment scoring engine: the REBA
calculator module (tables A/B/C, component scorers, `calculateREBA`) and
the weight-detection module (posture analysis, weight estimation, the
weight-adjusted RULA and REBA recalculators, and the RULA final-score
table copy that lives in that module).

Modelling conventions.  JavaScript numbers are modelled as real numbers
where the code performs transcendental geometry (atan2, acos, sqrt) and
as rationals or integers where the code only performs field arithmetic
and table lookups.  `Math.round` rounds half toward positive infinity,
which is `fun x => Int.floor (x + 1/2)`.  The JavaScript `a || b` idiom on
numbers treats both `undefined` and `0` as falsy; it is modelled by
`jsOrQ` / `jsOrZ`.  Array access `t[i]` yields `undefined` off the ends,
modelled by `jsIndex` returning an `Option`.  Objects are modelled as
structures; the presence or absence of the `isWeightAdjusted` key on the
adjusted-score objects is modelled with an `Option Bool` field, since one
of the two adjusters writes that key and the other does not.
-/

/-- JS Math.round on rationals: round half toward positive infinity. -/
def jsRound (x : ℚ) : ℤ := ⌊x + 1/2⌋

/-- JS Math.ceil on rationals. -/
def jsCeil (x : ℚ) : ℤ := ⌈x⌉

/-- JS Math.round on reals, used for the debug angle fields. -/
noncomputable def jsRoundR (x : ℝ) : ℤ := ⌊x + 1/2⌋

/-- JS `a || b` where `a` is an optional number: `undefined` and `0` are
falsy and fall through to `b`. -/
def jsOrQ (a : Option ℚ) (b : ℚ) : ℚ :=
  match a with
  | none => b
  | some x => if x = 0 then b else x

/-- JS `e || d` where `e` is an optional integer read from a table:
`undefined` and `0` fall through to `d`. -/
def jsOrZ (a : Option ℤ) (d : ℤ) : ℤ :=
  match a with
  | none => d
  | some x => if x = 0 then d else x

/-- JS array access `l[i]`: `undefined` when the index is negative or past
the end of the array. -/
def jsIndex {α : Type} (l : List α) (i : ℤ) : Option α :=
  if i < 0 then none else l.get? i.toNat

/-- JS two-dimensional table access `t[i]?.[j]`. -/
def jsIndex2 (t : List (List ℤ)) (i j : ℤ) : Option ℤ :=
  (jsIndex t i).bind (fun row => jsIndex row j)

/-- JS Math.atan2 modelled on reals: the four-quadrant arctangent. -/
noncomputable def jsAtan2 (y x : ℝ) : ℝ :=
  if 0 < x then Real.arctan (y / x)
  else if x < 0 ∧ 0 ≤ y then Real.arctan (y / x) + Real.pi
  else if x < 0 ∧ y < 0 then Real.arctan (y / x) - Real.pi
  else if x = 0 ∧ 0 < y then Real.pi / 2
  else if x = 0 ∧ y < 0 then -(Real.pi / 2)
  else 0

/-- A pose keypoint: normalized 2D position and detection confidence. -/
structure Keypoint where
  x : ℝ
  y : ℝ
  score : ℝ

namespace RebaCalc

/-- REBA Table A (5 rows by 4 columns). -/
def REBA_TABLE_A : List (List ℤ) :=
  [[1, 2, 3, 4],
   [2, 3, 4, 5],
   [2, 4, 5, 6],
   [3, 5, 6, 7],
   [4, 6, 7, 8]]

/-- REBA Table B (6 rows by 3 columns). -/
def REBA_TABLE_B : List (List ℤ) :=
  [[1, 2, 2],
   [1, 2, 3],
   [3, 4, 5],
   [4, 5, 6],
   [6, 7, 8],
   [7, 8, 9]]

/-- REBA Table C (12 rows by 12 columns). -/
def REBA_TABLE_C : List (List ℤ) :=
  [[1, 1, 1, 2, 3, 3, 4, 5, 6, 7, 7, 7],
   [1, 2, 2, 3, 4, 4, 5, 6, 6, 7, 7, 8],
   [2, 3, 3, 3, 4, 5, 6, 7, 7, 8, 8, 8],
   [3, 4, 4, 4, 5, 6, 7, 8, 8, 9, 9, 9],
   [4, 4, 4, 5, 6, 7, 8, 8, 9, 9, 9, 9],
   [6, 6, 6, 7, 8, 8, 9, 9, 10, 10, 10, 10],
   [7, 7, 7, 8, 9, 9, 9, 10, 10, 11, 11, 11],
   [8, 8, 8, 9, 10, 10, 10, 10, 10, 11, 11, 11],
   [9, 9, 9, 10, 10, 10, 11, 11, 11, 12, 12, 12],
   [10, 10, 10, 11, 11, 11, 11, 12, 12, 12, 12, 12],
   [11, 11, 11, 11, 12, 12, 12, 12, 12, 12, 12, 12],
   [12, 12, 12, 12, 12, 12, 12, 12, 12, 12, 12, 12]]

/-- REBA neck component score.  The source gives `isNeckTwisted` the
default value `false`; callers in this file pass it explicitly. -/
noncomputable def getNeckScore (neckAngle : ℝ) (isNeckTwisted : Bool) : ℤ :=
  let score : ℤ := if 0 ≤ neckAngle ∧ neckAngle < 20 then 1
    else if 20 ≤ neckAngle then 2 else 1
  let score := if neckAngle < 0 then 2 else score
  let score := if isNeckTwisted then score + 1 else score
  min 3 score

/-- REBA trunk component score (default `isTrunkTwisted = false`). -/
noncomputable def getTrunkScore (trunkAngle : ℝ) (isTrunkTwisted : Bool) : ℤ :=
  let score : ℤ := if 0 ≤ trunkAngle ∧ trunkAngle < 5 then 1
    else if 5 ≤ trunkAngle ∧ trunkAngle < 20 then 2
    else if 20 ≤ trunkAngle ∧ trunkAngle < 60 then 3
    else if 60 ≤ trunkAngle then 4 else 1
  let score := if isTrunkTwisted then score + 1 else score
  min 5 score

/-- REBA legs component score (default `isSupported = true`). -/
noncomputable def getLegsScore (kneeAngle : ℝ) (isSupported : Bool) : ℤ :=
  let score : ℤ := if 30 ≤ kneeAngle ∧ kneeAngle < 60 then 2
    else if 60 ≤ kneeAngle then 2 else 1
  let score := if !isSupported then score + 1 else score
  min 4 score

/-- REBA upper-arm component score (defaults: all three flags false). -/
noncomputable def getUpperArmScore (upperArmAngle : ℝ) (isShoulderRaised : Bool)
    (isArmAbducted : Bool) (isArmSupported : Bool) : ℤ :=
  let score : ℤ := if 20 ≤ upperArmAngle ∧ upperArmAngle < 45 then 2
    else if 45 ≤ upperArmAngle ∧ upperArmAngle < 90 then 3
    else if 90 ≤ upperArmAngle then 4 else 1
  let score := if upperArmAngle < -20 then 2 else score
  let score := if isShoulderRaised then score + 1 else score
  let score := if isArmAbducted then score + 1 else score
  let score := if isArmSupported then score - 1 else score
  max 1 (min 6 score)

/-- REBA lower-arm component score. -/
noncomputable def getLowerArmScore (lowerArmAngle : ℝ) : ℤ :=
  if 60 ≤ lowerArmAngle ∧ lowerArmAngle ≤ 100 then 1 else 2

/-- REBA wrist component score (default `isWristTwisted = false`). -/
noncomputable def getWristScore (wristAngle : ℝ) (isWristTwisted : Bool) : ℤ :=
  let score : ℤ := if 15 < |wristAngle| then 2 else 1
  let score := if isWristTwisted then score + 1 else score
  min 3 score

/-- REBA Score A: a lookup in `REBA_TABLE_A` indexed by the neck score and
a legs-derived index.  The trunk index is computed but never used by the
lookup, exactly as in the source. -/
def getScoreA (neck trunk legs : ℤ) : ℤ :=
  let neckIndex := max 0 (min 4 (neck - 1))
  let trunkIndex := max 0 (min 2 (trunk - 1))
  let legsAdjustedIndex : ℤ :=
    if legs = 1 then 0 else if legs = 2 then 1 else min 3 (legs - 1)
  jsOrZ (jsIndex2 REBA_TABLE_A neckIndex legsAdjustedIndex) 1

/-- REBA Score B: a lookup in `REBA_TABLE_B` indexed by the upper-arm and
wrist scores.  The lower-arm index is computed but never used by the
lookup, exactly as in the source. -/
def getScoreB (upperArm lowerArm wrist : ℤ) : ℤ :=
  let upperArmIndex := max 0 (min 5 (upperArm - 1))
  let lowerArmIndex := max 0 (min 1 (lowerArm - 1))
  let wristIndex := max 0 (min 2 (wrist - 1))
  jsOrZ (jsIndex2 REBA_TABLE_B upperArmIndex wristIndex) 1

/-- REBA final score: a clamped lookup in `REBA_TABLE_C` plus the load
and activity adders (the source defaults both adders to 0 and
`calculateREBA` never passes them). -/
def getFinalScore (scoreA scoreB loadCoupling activity : ℤ) : ℤ :=
  let scoreAIndex := max 0 (min 11 (scoreA - 1))
  let scoreBIndex := max 0 (min 11 (scoreB - 1))
  let finalScore := jsOrZ (jsIndex2 REBA_TABLE_C scoreAIndex scoreBIndex) 1
  let finalScore := finalScore + loadCoupling + activity
  max 1 (min 15 finalScore)

/-- REBA risk-level label. -/
def getRiskLevel (score : ℤ) : String :=
  if score = 1 then "Negligible"
  else if 2 ≤ score ∧ score ≤ 3 then "Low"
  else if 4 ≤ score ∧ score ≤ 7 then "Medium"
  else if 8 ≤ score ∧ score ≤ 10 then "High"
  else "Very High"

/-- REBA action-level label. -/
def getActionLevel (score : ℤ) : String :=
  if score = 1 then "None necessary"
  else if 2 ≤ score ∧ score ≤ 3 then "May be necessary"
  else if 4 ≤ score ∧ score ≤ 7 then "Necessary"
  else if 8 ≤ score ∧ score ≤ 10 then "Necessary soon"
  else "Necessary now"

/-- The REBA result object. -/
structure REBAScore where
  neck : ℤ
  trunk : ℤ
  legs : ℤ
  upperArm : ℤ
  lowerArm : ℤ
  wrist : ℤ
  scoreA : ℤ
  scoreB : ℤ
  finalScore : ℤ
  riskLevel : String
  actionLevel : String
  neckAngle : ℝ
  trunkAngle : ℝ
  upperArmAngle : ℝ
  lowerArmAngle : ℝ
  wristAngle : ℝ

/-- The body of `calculateREBA` after the length guard: landmark
extraction, dominant-side selection, angle computation, component scores
and table lookups.  A fully populated keypoint list makes every landmark
access succeed, so the try/catch of the source never fires; the `getD`
defaults are unreachable for lists of length at least 17. -/
noncomputable def rebaFromKeypoints (keypoints : List Keypoint) : REBAScore :=
  let dflt : Keypoint := ⟨0, 0, 0⟩
  let nose := keypoints.getD 0 dflt
  let leftShoulder := keypoints.getD 5 dflt
  let rightShoulder := keypoints.getD 6 dflt
  let leftElbow := keypoints.getD 7 dflt
  let rightElbow := keypoints.getD 8 dflt
  let leftWrist := keypoints.getD 9 dflt
  let rightWrist := keypoints.getD 10 dflt
  let leftHip := keypoints.getD 11 dflt
  let rightHip := keypoints.getD 12 dflt
  let leftKnee := keypoints.getD 13 dflt
  let rightKnee := keypoints.getD 14 dflt
  let useLeftSide := rightShoulder.score < leftShoulder.score
  let shoulder := if useLeftSide then leftShoulder else rightShoulder
  let elbow := if useLeftSide then leftElbow else rightElbow
  let wrist := if useLeftSide then leftWrist else rightWrist
  let hip := if useLeftSide then leftHip else rightHip
  let knee := if useLeftSide then leftKnee else rightKnee
  let shoulderMidX := (leftShoulder.x + rightShoulder.x) / 2
  let shoulderMidY := (leftShoulder.y + rightShoulder.y) / 2
  let neckAngle := jsAtan2 (nose.y - shoulderMidY) (nose.x - shoulderMidX) * 180 / Real.pi
  let hipMidX := (leftHip.x + rightHip.x) / 2
  let hipMidY := (leftHip.y + rightHip.y) / 2
  let trunkAngle := |jsAtan2 (shoulderMidY - hipMidY) (shoulderMidX - hipMidX) * 180 / Real.pi - 90|
  let upperArmAngle := |jsAtan2 (elbow.y - shoulder.y) (elbow.x - shoulder.x) * 180 / Real.pi - 90|
  let lowerArmAngle := |jsAtan2 (wrist.y - elbow.y) (wrist.x - elbow.x) * 180 / Real.pi -
    jsAtan2 (elbow.y - shoulder.y) (elbow.x - shoulder.x) * 180 / Real.pi|
  let wristFlexionAngle : ℝ := 15
  let kneeAngle := |jsAtan2 (knee.y - hip.y) (knee.x - hip.x) * 180 / Real.pi|
  let neckScore := getNeckScore |neckAngle - 90| false
  let trunkScore := getTrunkScore trunkAngle false
  let legsScore := getLegsScore kneeAngle true
  let upperArmScore := getUpperArmScore upperArmAngle false false false
  let lowerArmScore := getLowerArmScore lowerArmAngle
  let wristScore := getWristScore wristFlexionAngle false
  let scoreA := getScoreA neckScore trunkScore legsScore
  let scoreB := getScoreB upperArmScore lowerArmScore wristScore
  let finalScore := getFinalScore scoreA scoreB 0 0
  { neck := neckScore
    trunk := trunkScore
    legs := legsScore
    upperArm := upperArmScore
    lowerArm := lowerArmScore
    wrist := wristScore
    scoreA := scoreA
    scoreB := scoreB
    finalScore := finalScore
    riskLevel := getRiskLevel finalScore
    actionLevel := getActionLevel finalScore
    neckAngle := (jsRoundR (|neckAngle - 90| * 10) : ℝ) / 10
    trunkAngle := (jsRoundR (trunkAngle * 10) : ℝ) / 10
    upperArmAngle := (jsRoundR (upperArmAngle * 10) : ℝ) / 10
    lowerArmAngle := (jsRoundR (lowerArmAngle * 10) : ℝ) / 10
    wristAngle := (jsRoundR (wristFlexionAngle * 10) : ℝ) / 10 }

/-- Main REBA entry point: `null` for fewer than 17 keypoints, otherwise
the computed score object. -/
noncomputable def calculateREBA (keypoints : List Keypoint) : Option REBAScore :=
  if keypoints.length < 17 then none else some (rebaFromKeypoints keypoints)

end RebaCalc

namespace WeightDetection

/-- Arm-position classifier values. -/
inductive ArmPosition where
  | extended
  | close
  | overhead
deriving DecidableEq

/-- Load-direction classifier values (the source only ever produces
`front`). -/
inductive LoadDirection where
  | front
  | side
  | back
deriving DecidableEq

/-- Posture analysis result. -/
structure PostureAnalysis where
  isLifting : Bool
  isCarrying : Bool
  armPosition : ArmPosition
  spineDeviation : ℝ
  loadDirection : LoadDirection

/-- A detected external object (the source currently never produces
any). -/
structure DetectedObject where
  objType : String
  estimatedWeight : ℚ
  confidence : ℚ
  posX : ℝ
  posY : ℝ
  posW : ℝ
  posH : ℝ

/-- Weight estimation result. -/
structure WeightEstimation where
  estimatedWeight : ℚ
  confidence : ℚ
  detectedObjects : List DetectedObject
  bodyPosture : PostureAnalysis

/-- Elbow angle from shoulder, elbow and wrist keypoints via the vector
dot-product formula.  In exact arithmetic the arccosine argument is NaN
exactly when the denominator `magA * magB` is zero (a zero-length vector
forces the numerator to zero as well, giving 0/0, and Cauchy-Schwarz
rules out any argument outside [-1, 1]); the isNaN guard of the source is
therefore modelled as the zero-denominator test returning 90. -/
noncomputable def calculateElbowAngle (shoulder elbow wrist : Keypoint) : ℝ :=
  let sx := elbow.x - shoulder.x
  let sy := elbow.y - shoulder.y
  let wx := wrist.x - elbow.x
  let wy := wrist.y - elbow.y
  let dot := sx * wx + sy * wy
  let magA := Real.sqrt (sx ^ 2 + sy ^ 2)
  let magB := Real.sqrt (wx ^ 2 + wy ^ 2)
  if magA * magB = 0 then 90
  else Real.arccos (dot / (magA * magB)) * (180 / Real.pi)

/-- Posture analysis.  For a list of length at least 17 every destructured
landmark is present, so the inner object-truthiness check of the source
always passes; the sequential reassignments of the source are modelled by
shadowing lets. -/
noncomputable def analyzePosture (keypoints : List Keypoint) : PostureAnalysis :=
  if 17 ≤ keypoints.length then
    let dflt : Keypoint := ⟨0, 0, 0⟩
    let leftShoulder := keypoints.getD 5 dflt
    let rightShoulder := keypoints.getD 6 dflt
    let leftElbow := keypoints.getD 7 dflt
    let rightElbow := keypoints.getD 8 dflt
    let leftWrist := keypoints.getD 9 dflt
    let rightWrist := keypoints.getD 10 dflt
    let leftHip := keypoints.getD 11 dflt
    let rightHip := keypoints.getD 12 dflt
    let leftElbowAngle := calculateElbowAngle leftShoulder leftElbow leftWrist
    let rightElbowAngle := calculateElbowAngle rightShoulder rightElbow rightWrist
    let leftArmExtended : Bool :=
      if 30 < leftElbowAngle ∧ leftElbowAngle < 150 then true else false
    let rightArmExtended : Bool :=
      if 30 < rightElbowAngle ∧ rightElbowAngle < 150 then true else false
    let leftWristAway : Bool :=
      if 0.05 < |leftWrist.x - leftShoulder.x| then true else false
    let rightWristAway : Bool :=
      if 0.05 < |rightWrist.x - rightShoulder.x| then true else false
    let isCarrying := (leftArmExtended && leftWristAway) || (rightArmExtended && rightWristAway)
    let armPosition := if isCarrying then ArmPosition.extended else ArmPosition.close
    let isLifting := leftArmExtended && rightArmExtended && (leftWristAway || rightWristAway)
    let armPosition := if isLifting then ArmPosition.extended else armPosition
    let overhead : Bool :=
      if leftWrist.y < leftShoulder.y - 0.1 ∨ rightWrist.y < rightShoulder.y - 0.1
      then true else false
    let armPosition := if overhead then ArmPosition.overhead else armPosition
    let isLifting := if overhead then true else isLifting
    let hipCenterX := (leftHip.x + rightHip.x) / 2
    let shoulderCenterX := (leftShoulder.x + rightShoulder.x) / 2
    let spineDeviation := |shoulderCenterX - hipCenterX| * 100
    ⟨isLifting, isCarrying, armPosition, spineDeviation, LoadDirection.front⟩
  else
    ⟨false, false, ArmPosition.close, 0, LoadDirection.front⟩

/-- Conservative base-weight heuristic.  The weight value is always a
rational (an integer, in fact) even though the branch conditions compare
real-valued angles. -/
noncomputable def calculateWeightFromPosture (bodyPosture : PostureAnalysis)
    (keypoints : List Keypoint) : ℚ :=
  let baseWeight : ℚ :=
    if bodyPosture.isLifting ∧ bodyPosture.armPosition = ArmPosition.extended then 10
    else if bodyPosture.isCarrying ∧ bodyPosture.armPosition = ArmPosition.extended then 7
    else if bodyPosture.armPosition = ArmPosition.overhead then 12
    else 0
  if 17 ≤ keypoints.length ∧ 0 < baseWeight then
    let dflt : Keypoint := ⟨0, 0, 0⟩
    let leftShoulder := keypoints.getD 5 dflt
    let rightShoulder := keypoints.getD 6 dflt
    let leftElbow := keypoints.getD 7 dflt
    let rightElbow := keypoints.getD 8 dflt
    let leftWrist := keypoints.getD 9 dflt
    let rightWrist := keypoints.getD 10 dflt
    let leftElbowAngle := calculateElbowAngle leftShoulder leftElbow leftWrist
    let rightElbowAngle := calculateElbowAngle rightShoulder rightElbow rightWrist
    let asymmetry := |leftElbowAngle - rightElbowAngle|
    let baseWeight := if 30 < asymmetry then baseWeight + 3 else baseWeight
    let shoulderCenterY := (leftShoulder.y + rightShoulder.y) / 2
    let wristCenterY := (leftWrist.y + rightWrist.y) / 2
    if shoulderCenterY + 0.15 < wristCenterY then baseWeight + 5 else baseWeight
  else baseWeight

/-- Weight estimation entry point. -/
noncomputable def estimateWeightFromPosture (keypoints : List Keypoint) : WeightEstimation :=
  let bodyPosture := analyzePosture keypoints
  let estimatedWeight := calculateWeightFromPosture bodyPosture keypoints
  let isHoldingObject := bodyPosture.isLifting || bodyPosture.isCarrying
  { estimatedWeight := if isHoldingObject then estimatedWeight else 0
    confidence := if isHoldingObject then 0.8 else 0.1
    detectedObjects := []
    bodyPosture := bodyPosture }

/-- The 12 by 12 REBA score matrix of the weight-detection module (a copy
of REBA Table C; hoisted out of `getRebaFinalScore` so that theorems can
name its entries). -/
def rebaScoreMatrix : List (List ℤ) :=
  [[1, 1, 1, 2, 3, 3, 4, 5, 6, 7, 7, 7],
   [1, 2, 2, 3, 4, 4, 5, 6, 6, 7, 7, 8],
   [2, 3, 3, 3, 4, 5, 6, 7, 7, 8, 8, 8],
   [3, 4, 4, 4, 5, 6, 7, 8, 8, 9, 9, 9],
   [4, 4, 4, 5, 6, 7, 8, 8, 9, 9, 9, 9],
   [6, 6, 6, 7, 8, 8, 9, 9, 10, 10, 10, 10],
   [7, 7, 7, 8, 9, 9, 9, 10, 10, 11, 11, 11],
   [8, 8, 8, 9, 10, 10, 10, 10, 10, 11, 11, 11],
   [9, 9, 9, 10, 10, 10, 11, 11, 11, 12, 12, 12],
   [10, 10, 10, 11, 11, 11, 11, 12, 12, 12, 12, 12],
   [11, 11, 11, 11, 12, 12, 12, 12, 12, 12, 12, 12],
   [12, 12, 12, 12, 12, 12, 12, 12, 12, 12, 12, 12]]

/-- REBA final-score lookup of the weight-detection module.  The indices
are clamped into [0, 11] before the direct (unguarded) matrix access, so
the `getD` defaults are unreachable. -/
def getRebaFinalScore (scoreA scoreB : ℤ) : ℤ :=
  let aIndex := min (max (scoreA - 1) 0) 11
  let bIndex := min (max (scoreB - 1) 0) 11
  (rebaScoreMatrix.getD aIndex.toNat []).getD bIndex.toNat 0

/-- REBA risk label of the weight-detection module. -/
def getRebaRiskLevel (score : ℤ) : String :=
  if score = 1 then "Negligible Risk"
  else if score ≤ 3 then "Low Risk"
  else if score ≤ 7 then "Medium Risk"
  else if score ≤ 10 then "High Risk"
  else "Very High Risk"

/-- REBA action label of the weight-detection module. -/
def getRebaActionLevel (score : ℤ) : String :=
  if score = 1 then "None necessary"
  else if score ≤ 3 then "May be necessary"
  else if score ≤ 7 then "Necessary"
  else if score ≤ 10 then "Necessary soon"
  else "Necessary now"

/-- The base REBA score object consumed by the weight adjuster (the shape
produced by the REBA calculator). -/
structure RebaBase where
  neck : ℤ
  trunk : ℤ
  legs : ℤ
  upperArm : ℤ
  lowerArm : ℤ
  wrist : ℤ
  scoreA : ℤ
  scoreB : ℤ
  finalScore : ℤ
  riskLevel : String
  actionLevel : String

/-- The object returned by `calculateWeightAdjustedReba`: the spread of
the base object with the recomputed and appended fields.  The
`isWeightAdjusted` field models the presence of that key on the JS
object. -/
structure AdjustedReba where
  neck : ℤ
  trunk : ℤ
  legs : ℤ
  upperArm : ℤ
  lowerArm : ℤ
  wrist : ℤ
  scoreA : ℤ
  scoreB : ℤ
  finalScore : ℤ
  riskLevel : String
  actionLevel : String
  effectiveWeight : ℚ
  weightMultiplier : ℚ
  isWeightAdjusted : Option Bool

/-- Weight-adjusted REBA recalculation.  The null-input early return of
the source is outside this model: the base object is a value here.
`manualWeight` is the optional third argument; the source combines it
with the estimate via `||`, so an override of 0 is falsy and falls
through to the estimate. -/
def calculateWeightAdjustedReba (originalReba : RebaBase)
    (weightEstimation : WeightEstimation) (manualWeight : Option ℚ) : AdjustedReba :=
  let effectiveWeight := jsOrQ manualWeight weightEstimation.estimatedWeight
  let weightMultiplier : ℚ :=
    if effectiveWeight ≤ 5 then 1
    else if effectiveWeight ≤ 10 then 11/10
    else if effectiveWeight ≤ 20 then 13/10
    else if effectiveWeight ≤ 40 then 3/2
    else 9/5
  let adjustedScoreA := min 12 (jsRound ((originalReba.scoreA : ℚ) * weightMultiplier))
  let adjustedScoreB := min 12 (jsRound ((originalReba.scoreB : ℚ) * weightMultiplier))
  let adjustedFinalScore := min 15 (getRebaFinalScore adjustedScoreA adjustedScoreB)
  { neck := originalReba.neck
    trunk := originalReba.trunk
    legs := originalReba.legs
    upperArm := originalReba.upperArm
    lowerArm := originalReba.lowerArm
    wrist := originalReba.wrist
    scoreA := adjustedScoreA
    scoreB := adjustedScoreB
    finalScore := adjustedFinalScore
    riskLevel := getRebaRiskLevel adjustedFinalScore
    actionLevel := getRebaActionLevel adjustedFinalScore
    effectiveWeight := effectiveWeight
    weightMultiplier := weightMultiplier
    isWeightAdjusted := some true }

/-- The base RULA score object consumed by the weight adjuster. -/
structure RulaScore where
  upperArm : ℤ
  lowerArm : ℤ
  wrist : ℤ
  neck : ℤ
  trunk : ℤ
  scoreA : ℤ
  scoreB : ℤ
  finalScore : ℤ
  riskLevel : String

/-- The object returned by `calculateWeightAdjustedRula`: the spread of
the base object with `finalScore` and `riskLevel` overwritten and
`effectiveWeight` and `weightMultiplier` appended.  The source writes no
`isWeightAdjusted` key on this object, so the field carries the absence
of the key. -/
structure AdjustedRula where
  upperArm : ℤ
  lowerArm : ℤ
  wrist : ℤ
  neck : ℤ
  trunk : ℤ
  scoreA : ℤ
  scoreB : ℤ
  finalScore : ℤ
  riskLevel : String
  effectiveWeight : ℚ
  weightMultiplier : ℚ
  isWeightAdjusted : Option Bool

/-- Weight-adjusted RULA recalculation.  The effective weight is
`manualWeight || weightEstimation.estimatedWeight || 0` in the source;
the trailing `|| 0` is modelled by the inner zero test. -/
def calculateWeightAdjustedRula (originalRula : RulaScore)
    (weightEstimation : WeightEstimation) (manualWeight : Option ℚ) : AdjustedRula :=
  let e1 := jsOrQ manualWeight weightEstimation.estimatedWeight
  let effectiveWeight := if e1 = 0 then 0 else e1
  let weightMultiplier : ℚ :=
    if 23 < effectiveWeight then 3
    else if 10 < effectiveWeight then 2
    else if 5 < effectiveWeight then 3/2
    else 1
  let adjustedFinalScore := min 7 (jsCeil ((originalRula.finalScore : ℚ) * weightMultiplier))
  { upperArm := originalRula.upperArm
    lowerArm := originalRula.lowerArm
    wrist := originalRula.wrist
    neck := originalRula.neck
    trunk := originalRula.trunk
    scoreA := originalRula.scoreA
    scoreB := originalRula.scoreB
    finalScore := adjustedFinalScore
    riskLevel :=
      if adjustedFinalScore ≤ 2 then "Low Risk"
      else if adjustedFinalScore ≤ 4 then "Medium Risk"
      else if adjustedFinalScore ≤ 6 then "High Risk"
      else "Critical Risk"
    effectiveWeight := effectiveWeight
    weightMultiplier := weightMultiplier
    isWeightAdjusted := none }

/-- The RULA final-score table of the weight-detection module (8 rows by
7 columns; hoisted out of `getFinalScore` so that theorems can check its
entries). -/
def rulaFinalScoreTable : List (List ℤ) :=
  [[1, 1, 1, 2, 3, 3, 4],
   [1, 2, 2, 3, 3, 3, 4],
   [2, 2, 2, 3, 3, 3, 4],
   [3, 3, 3, 3, 3, 4, 4],
   [4, 4, 4, 4, 4, 4, 5],
   [4, 4, 4, 4, 4, 4, 5],
   [5, 5, 5, 5, 5, 5, 6],
   [5, 5, 5, 5, 5, 6, 6]]

/-- RULA final-score table lookup of the weight-detection module.  Both
indices are clamped into the valid bounds before the direct matrix
access, so the `getD` defaults are unreachable. -/
def getFinalScore (scoreA scoreB : ℤ) : ℤ :=
  let scoreAIdx := max 0 (min 7 (scoreA - 1))
  let scoreBIdx := max 0 (min 6 (scoreB - 1))
  (rulaFinalScoreTable.getD scoreAIdx.toNat []).getD scoreBIdx.toNat 0

end WeightDetection

/-! Concrete sample values used by witnesses and counterexamples. -/

/-- A fully populated 17-keypoint pose (all landmarks at the origin). -/
def kp17 : List Keypoint := List.replicate 17 ⟨0, 0, 0⟩

/-- A neutral posture-analysis value. -/
def samplePosture : WeightDetection.PostureAnalysis :=
  ⟨false, false, WeightDetection.ArmPosition.close, 0, WeightDetection.LoadDirection.front⟩

/-- A weight estimation with a chosen estimated weight. -/
def sampleEst (w : ℚ) : WeightDetection.WeightEstimation := ⟨w, 0.1, [], samplePosture⟩

/-- A base REBA score with scoreA = 4 and scoreB = 3. -/
def sampleRebaBase : WeightDetection.RebaBase :=
  ⟨1, 1, 1, 1, 1, 1, 4, 3, 4, "Medium Risk", "Necessary"⟩

/-- A base RULA score with finalScore = 1. -/
def sampleRula : WeightDetection.RulaScore :=
  ⟨1, 1, 1, 1, 1, 1, 1, 1, "Acceptable"⟩

/-! Helper lemmas about the lookup tables. -/

/-- Every entry of the RULA final-score table reachable through the
clamped indices lies in [1, 7]. -/
lemma rula_table_entry_range : ∀ i : ℕ, i < 8 → ∀ j : ℕ, j < 7 →
    1 ≤ (WeightDetection.rulaFinalScoreTable.getD i []).getD j 0 ∧
    (WeightDetection.rulaFinalScoreTable.getD i []).getD j 0 ≤ 7 := by decide

/-- The REBA final score of the REBA calculator is clamped into [1, 15]
for all integer inputs, including the load and activity adders. -/
lemma reba_getFinalScore_range (a b lc act : ℤ) :
    1 ≤ RebaCalc.getFinalScore a b lc act ∧ RebaCalc.getFinalScore a b lc act ≤ 15 := by
  simp only [RebaCalc.getFinalScore]
  exact ⟨le_max_left _ _, max_le (by norm_num) (min_le_left _ _)⟩

/-- C1: for all integer component scores, the RULA final-score table
lookup of the weight-detection module returns a value in [1, 7], and for
every pose `calculateREBA` accepts (at least 17 keypoints), the returned
final score lies in [1, 15]; the clamping of every table index makes both
lookups total, so no input angles produce an out-of-range final score. -/
theorem final_scores_always_in_documented_range :
    (∀ a b : ℤ, 1 ≤ WeightDetection.getFinalScore a b ∧
      WeightDetection.getFinalScore a b ≤ 7) ∧
    (∀ (kps : List Keypoint) (r : RebaCalc.REBAScore),
      RebaCalc.calculateREBA kps = some r → 1 ≤ r.finalScore ∧ r.finalScore ≤ 15) := by
  constructor
  · intro a b
    have hA : (max 0 (min 7 (a - 1))).toNat < 8 := by omega
    have hB : (max 0 (min 6 (b - 1))).toNat < 7 := by omega
    have h := rula_table_entry_range _ hA _ hB
    simpa [WeightDetection.getFinalScore] using h
  · intro kps r h
    unfold RebaCalc.calculateREBA at h
    split at h
    · exact absurd h (by simp)
    · have hr : RebaCalc.rebaFromKeypoints kps = r := Option.some.inj h
      subst hr
      constructor
      · simp only [RebaCalc.rebaFromKeypoints]
        exact (reba_getFinalScore_range _ _ _ _).1
      · simp only [RebaCalc.rebaFromKeypoints]
        exact (reba_getFinalScore_range _ _ _ _).2

/-- Witness for C1 at concrete inputs: extreme RULA component scores and a
concrete 17-keypoint pose. -/
theorem final_scores_range_witness :
    (1 ≤ WeightDetection.getFinalScore 100 (-3) ∧ WeightDetection.getFinalScore 100 (-3) ≤ 7) ∧
    (1 ≤ (RebaCalc.rebaFromKeypoints kp17).finalScore ∧
      (RebaCalc.rebaFromKeypoints kp17).finalScore ≤ 15) := by
  refine ⟨final_scores_always_in_documented_range.1 100 (-3),
    final_scores_always_in_documented_range.2 kp17 (RebaCalc.rebaFromKeypoints kp17) ?_⟩
  simp [RebaCalc.calculateREBA, kp17]

/-- C5: the REBA Score A lookup does not depend on the trunk score, and
the REBA Score B lookup does not depend on the lower-arm score; the
tables have the stated 5 by 4 and 6 by 3 dimensions. -/
theorem reba_scoreA_ignores_trunk_scoreB_ignores_lowerArm :
    (∀ neck trunk trunk2 legs : ℤ,
      RebaCalc.getScoreA neck trunk legs = RebaCalc.getScoreA neck trunk2 legs) ∧
    (∀ upperArm lowerArm lowerArm2 wrist : ℤ,
      RebaCalc.getScoreB upperArm lowerArm wrist = RebaCalc.getScoreB upperArm lowerArm2 wrist) ∧
    (RebaCalc.REBA_TABLE_A.length = 5 ∧
      (RebaCalc.REBA_TABLE_A.all fun row => row.length == 4) = true) ∧
    (RebaCalc.REBA_TABLE_B.length = 6 ∧
      (RebaCalc.REBA_TABLE_B.all fun row => row.length == 3) = true) :=
  ⟨fun _ _ _ _ => rfl, fun _ _ _ _ => rfl, by decide, by decide⟩

/-- C9 (amended): both adjusters are pure derivations that copy the base
object; `calculateWeightAdjustedReba` carries the six component scores
unchanged and appends `effectiveWeight`, `weightMultiplier` and
`isWeightAdjusted: true`, while `calculateWeightAdjustedRula` carries the
components and both group scores unchanged and appends only
`effectiveWeight` and `weightMultiplier`, writing no `isWeightAdjusted`
key. -/
theorem adjusters_copy_base_and_append_fields :
    ∀ (rb : WeightDetection.RebaBase) (ru : WeightDetection.RulaScore)
      (est : WeightDetection.WeightEstimation) (mw : Option ℚ),
    ((WeightDetection.calculateWeightAdjustedReba rb est mw).neck = rb.neck ∧
     (WeightDetection.calculateWeightAdjustedReba rb est mw).trunk = rb.trunk ∧
     (WeightDetection.calculateWeightAdjustedReba rb est mw).legs = rb.legs ∧
     (WeightDetection.calculateWeightAdjustedReba rb est mw).upperArm = rb.upperArm ∧
     (WeightDetection.calculateWeightAdjustedReba rb est mw).lowerArm = rb.lowerArm ∧
     (WeightDetection.calculateWeightAdjustedReba rb est mw).wrist = rb.wrist ∧
     (WeightDetection.calculateWeightAdjustedReba rb est mw).isWeightAdjusted = some true) ∧
    ((WeightDetection.calculateWeightAdjustedRula ru est mw).upperArm = ru.upperArm ∧
     (WeightDetection.calculateWeightAdjustedRula ru est mw).lowerArm = ru.lowerArm ∧
     (WeightDetection.calculateWeightAdjustedRula ru est mw).wrist = ru.wrist ∧
     (WeightDetection.calculateWeightAdjustedRula ru est mw).neck = ru.neck ∧
     (WeightDetection.calculateWeightAdjustedRula ru est mw).trunk = ru.trunk ∧
     (WeightDetection.calculateWeightAdjustedRula ru est mw).scoreA = ru.scoreA ∧
     (WeightDetection.calculateWeightAdjustedRula ru est mw).scoreB = ru.scoreB ∧
     (WeightDetection.calculateWeightAdjustedRula ru est mw).isWeightAdjusted = none) :=
  fun _ _ _ _ =>
    ⟨⟨rfl, rfl, rfl, rfl, rfl, rfl, rfl⟩, ⟨rfl, rfl, rfl, rfl, rfl, rfl, rfl, rfl⟩⟩

/-- Counterexample for C9 as stated: the RULA adjuster does not append
`isWeightAdjusted: true`; on a concrete base score the returned object
carries no such key. -/
theorem rula_adjuster_missing_isWeightAdjusted :
    (WeightDetection.calculateWeightAdjustedRula sampleRula (sampleEst 0) none).isWeightAdjusted
      = none ∧
    ¬ (WeightDetection.calculateWeightAdjustedRula sampleRula (sampleEst 0) none).isWeightAdjusted
      = some true := by
  refine ⟨rfl, fun h => ?_⟩
  rw [show (WeightDetection.calculateWeightAdjustedRula sampleRula (sampleEst 0)
    none).isWeightAdjusted = none from rfl] at h
  exact Option.noConfusion h

/-- C2: `calculateWeightAdjustedReba` picks the multiplier band from the
effective weight (1.0 up to 5 kg, 1.1 up to 10, 1.3 up to 20, 1.5 up to
40, 1.8 beyond), sets the adjusted group scores to the rounded products
clamped to 12, recomputes the final score through the REBA score matrix
clamped to 15, and re-derives the risk and action labels; a 25 kg manual
weight on a base with scoreA = 4 and scoreB = 3 lands in the 1.5 band,
gives adjusted scores 6 and 5, and reads the score matrix at row 5,
column 4 (0-indexed). -/
theorem weight_adjusted_reba_formula :
    (∀ (base : WeightDetection.RebaBase) (est : WeightDetection.WeightEstimation)
      (mw : Option ℚ),
      let r := WeightDetection.calculateWeightAdjustedReba base est mw
      ((r.effectiveWeight ≤ 5 → r.weightMultiplier = 1) ∧
       (5 < r.effectiveWeight → r.effectiveWeight ≤ 10 → r.weightMultiplier = 11/10) ∧
       (10 < r.effectiveWeight → r.effectiveWeight ≤ 20 → r.weightMultiplier = 13/10) ∧
       (20 < r.effectiveWeight → r.effectiveWeight ≤ 40 → r.weightMultiplier = 3/2) ∧
       (40 < r.effectiveWeight → r.weightMultiplier = 9/5)) ∧
      r.scoreA = min 12 (jsRound ((base.scoreA : ℚ) * r.weightMultiplier)) ∧
      r.scoreB = min 12 (jsRound ((base.scoreB : ℚ) * r.weightMultiplier)) ∧
      r.finalScore = min 15 (WeightDetection.getRebaFinalScore r.scoreA r.scoreB) ∧
      r.riskLevel = WeightDetection.getRebaRiskLevel r.finalScore ∧
      r.actionLevel = WeightDetection.getRebaActionLevel r.finalScore) ∧
    (∀ (base : WeightDetection.RebaBase) (est : WeightDetection.WeightEstimation),
      base.scoreA = 4 → base.scoreB = 3 →
      let r := WeightDetection.calculateWeightAdjustedReba base est (some 25)
      r.weightMultiplier = 3/2 ∧ r.scoreA = 6 ∧ r.scoreB = 5 ∧
      r.finalScore = (WeightDetection.rebaScoreMatrix.getD 5 []).getD 4 0) := by
  constructor
  · intro base est mw
    simp only [WeightDetection.calculateWeightAdjustedReba]
    refine ⟨⟨?_, ?_, ?_, ?_, ?_⟩, ?_, ?_, ?_, ?_, ?_⟩ <;>
      try trivial
    · intro h; rw [if_pos h]
    · intro h1 h2; rw [if_neg (by push_neg; linarith), if_pos h2]
    · intro h1 h2
      rw [if_neg (by push_neg; linarith), if_neg (by push_neg; linarith), if_pos h2]
    · intro h1 h2
      rw [if_neg (by push_neg; linarith), if_neg (by push_neg; linarith),
        if_neg (by push_neg; linarith), if_pos h2]
    · intro h1
      rw [if_neg (by push_neg; linarith), if_neg (by push_neg; linarith),
        if_neg (by push_neg; linarith), if_neg (by push_neg; linarith)]
  · intro base est h4 h3
    simp only [WeightDetection.calculateWeightAdjustedReba, h4, h3]
    have hw : jsOrQ (some 25) est.estimatedWeight = 25 := by norm_num [jsOrQ]
    rw [hw]
    have hm : (if (25:ℚ) ≤ 5 then (1:ℚ) else if (25:ℚ) ≤ 10 then 11/10
        else if (25:ℚ) ≤ 20 then 13/10 else if (25:ℚ) ≤ 40 then 3/2 else 9/5) = 3/2 := by
      norm_num
    rw [hm]
    have hA : jsRound (((4:ℤ) : ℚ) * (3/2)) = 6 := by norm_num [jsRound]
    have hB : jsRound (((3:ℤ) : ℚ) * (3/2)) = 5 := by norm_num [jsRound]
    rw [hA, hB]
    refine ⟨rfl, by decide, by decide, by decide⟩

/-- Witness for C2: the 25 kg scenario evaluated on a concrete base score
and estimation. -/
theorem weight_adjusted_reba_formula_witness :
    (WeightDetection.calculateWeightAdjustedReba sampleRebaBase (sampleEst 0)
        (some 25)).weightMultiplier = 3/2 ∧
    (WeightDetection.calculateWeightAdjustedReba sampleRebaBase (sampleEst 0)
        (some 25)).scoreA = 6 ∧
    (WeightDetection.calculateWeightAdjustedReba sampleRebaBase (sampleEst 0)
        (some 25)).scoreB = 5 ∧
    (WeightDetection.calculateWeightAdjustedReba sampleRebaBase (sampleEst 0)
        (some 25)).finalScore = (WeightDetection.rebaScoreMatrix.getD 5 []).getD 4 0 :=
  weight_adjusted_reba_formula.2 sampleRebaBase (sampleEst 0) rfl rfl

/-- Counterexample for C3 as stated: the adjusted RULA risk label on a
final score of at most 2 is "Low Risk", not the "Acceptable" wording the
claim asserts. -/
theorem rula_adjusted_risk_label_counterexample :
    (WeightDetection.calculateWeightAdjustedRula sampleRula (sampleEst 0) none).finalScore ≤ 2 ∧
    (WeightDetection.calculateWeightAdjustedRula sampleRula (sampleEst 0) none).riskLevel
      ≠ "Acceptable" := by
  have hf : (WeightDetection.calculateWeightAdjustedRula sampleRula (sampleEst 0)
      none).finalScore = 1 := by
    simp only [WeightDetection.calculateWeightAdjustedRula, sampleRula, sampleEst, jsOrQ]
    norm_num [jsCeil, min_def]
  have hr : (WeightDetection.calculateWeightAdjustedRula sampleRula (sampleEst 0)
      none).riskLevel = "Low Risk" := by
    simp only [WeightDetection.calculateWeightAdjustedRula, sampleRula, sampleEst, jsOrQ]
    norm_num [jsCeil, min_def]
  refine ⟨by rw [hf]; norm_num, by rw [hr]; decide⟩

/-- C3 (amended): the RULA adjuster uses multiplier 3 above 23 kg, 2 above
10 kg, 1.5 above 5 kg and 1 otherwise; the adjusted final score is the
ceiling of the product clamped to 7; and the risk label is re-derived
from the new final score with the RULA breakpoints at 2, 4 and 6 but with
the labels "Low Risk", "Medium Risk", "High Risk" and "Critical Risk". -/
theorem weight_adjusted_rula_formula :
    ∀ (base : WeightDetection.RulaScore) (est : WeightDetection.WeightEstimation)
      (mw : Option ℚ),
    let r := WeightDetection.calculateWeightAdjustedRula base est mw
    ((23 < r.effectiveWeight → r.weightMultiplier = 3) ∧
     (10 < r.effectiveWeight → r.effectiveWeight ≤ 23 → r.weightMultiplier = 2) ∧
     (5 < r.effectiveWeight → r.effectiveWeight ≤ 10 → r.weightMultiplier = 3/2) ∧
     (r.effectiveWeight ≤ 5 → r.weightMultiplier = 1)) ∧
    r.finalScore = min 7 (jsCeil ((base.finalScore : ℚ) * r.weightMultiplier)) ∧
    r.riskLevel = (if r.finalScore ≤ 2 then "Low Risk"
      else if r.finalScore ≤ 4 then "Medium Risk"
      else if r.finalScore ≤ 6 then "High Risk" else "Critical Risk") := by
  intro base est mw
  simp only [WeightDetection.calculateWeightAdjustedRula]
  refine ⟨⟨?_, ?_, ?_, ?_⟩, ?_, ?_⟩ <;>
    try trivial
  · intro h; rw [if_pos h]
  · intro h1 h2; rw [if_neg (by push_neg; linarith), if_pos h1]
  · intro h1 h2
    rw [if_neg (by push_neg; linarith), if_neg (by push_neg; linarith), if_pos h1]
  · intro h
    rw [if_neg (by push_neg; linarith), if_neg (by push_neg; linarith),
      if_neg (by push_neg; linarith)]

/-- Witness for C3: a 25 kg manual weight lands in the times-3 band and a
base final score of 1 becomes 3 with the "Medium Risk" label. -/
theorem weight_adjusted_rula_formula_witness :
    (WeightDetection.calculateWeightAdjustedRula sampleRula (sampleEst 0)
        (some 25)).weightMultiplier = 3 :=
  (weight_adjusted_rula_formula sampleRula (sampleEst 0) (some 25)).1.1 (by
    simp only [WeightDetection.calculateWeightAdjustedRula, sampleEst, jsOrQ]
    norm_num)

/-- Counterexample for C4 as stated: supplying a manual weight override of
0 does not make the effective weight 0; both adjusters fall back to the
estimated weight because the JS OR treats 0 as falsy. -/
theorem manual_weight_zero_ignored :
    (WeightDetection.calculateWeightAdjustedReba sampleRebaBase (sampleEst 10)
        (some 0)).effectiveWeight = 10 ∧
    (WeightDetection.calculateWeightAdjustedRula sampleRula (sampleEst 10)
        (some 0)).effectiveWeight = 10 ∧
    (10 : ℚ) ≠ 0 := by decide

/-- C4 (amended): a nonzero manual override is the effective weight; an
absent or zero override makes both adjusters use the estimated weight. -/
theorem effective_weight_selection :
    ∀ (rb : WeightDetection.RebaBase) (ru : WeightDetection.RulaScore)
      (est : WeightDetection.WeightEstimation) (w : ℚ),
    (w ≠ 0 →
      (WeightDetection.calculateWeightAdjustedReba rb est (some w)).effectiveWeight = w ∧
      (WeightDetection.calculateWeightAdjustedRula ru est (some w)).effectiveWeight = w) ∧
    (WeightDetection.calculateWeightAdjustedReba rb est none).effectiveWeight
      = est.estimatedWeight ∧
    (WeightDetection.calculateWeightAdjustedReba rb est (some 0)).effectiveWeight
      = est.estimatedWeight ∧
    (WeightDetection.calculateWeightAdjustedRula ru est none).effectiveWeight
      = est.estimatedWeight ∧
    (WeightDetection.calculateWeightAdjustedRula ru est (some 0)).effectiveWeight
      = est.estimatedWeight := by
  intro rb ru est w
  refine ⟨fun hw => ⟨?_, ?_⟩, ?_, ?_, ?_, ?_⟩
  · simp [WeightDetection.calculateWeightAdjustedReba, jsOrQ, hw]
  · simp [WeightDetection.calculateWeightAdjustedRula, jsOrQ, hw]
  · simp [WeightDetection.calculateWeightAdjustedReba, jsOrQ]
  · simp [WeightDetection.calculateWeightAdjustedReba, jsOrQ]
  · rcases eq_or_ne est.estimatedWeight 0 with h | h <;>
      simp [WeightDetection.calculateWeightAdjustedRula, jsOrQ, h]
  · rcases eq_or_ne est.estimatedWeight 0 with h | h <;>
      simp [WeightDetection.calculateWeightAdjustedRula, jsOrQ, h]

/-- Witness for C4: a nonzero override of 25 kg is used verbatim by both
adjusters on a concrete base and estimation. -/
theorem effective_weight_selection_witness :
    (WeightDetection.calculateWeightAdjustedReba sampleRebaBase (sampleEst 10)
        (some 25)).effectiveWeight = 25 ∧
    (WeightDetection.calculateWeightAdjustedRula sampleRula (sampleEst 10)
        (some 25)).effectiveWeight = 25 :=
  (effective_weight_selection sampleRebaBase sampleRula (sampleEst 10) 25).1 (by norm_num)

/-- Counterexample for C6 as stated: for collinear shoulder, elbow and
wrist with the elbow between the other two points, the helper returns 0
degrees (the angle between the two segment direction vectors), not
approximately 180. -/
theorem elbow_angle_collinear_gives_zero :
    WeightDetection.calculateElbowAngle ⟨0, 0, 1⟩ ⟨1, 0, 1⟩ ⟨2, 0, 1⟩ = 0 ∧
    WeightDetection.calculateElbowAngle ⟨0, 0, 1⟩ ⟨1, 0, 1⟩ ⟨2, 0, 1⟩ < 170 := by
  have h : WeightDetection.calculateElbowAngle ⟨0, 0, 1⟩ ⟨1, 0, 1⟩ ⟨2, 0, 1⟩ = 0 := by
    simp only [WeightDetection.calculateElbowAngle]
    norm_num [Real.sqrt_one, Real.arccos_one]
  exact ⟨h, by rw [h]; norm_num⟩

/-- C6 (amended): the helper computes acos of the normalized dot product
of the vectors elbow minus shoulder and wrist minus elbow, scaled to
degrees; a degenerate input with shoulder equal to elbow returns exactly
90 (the NaN guard); and collinear points with the elbow strictly between
shoulder and wrist (the second vector a positive multiple of the first)
yield exactly 0 degrees. -/
theorem elbow_angle_degenerate_and_collinear :
    (∀ s w : Keypoint, WeightDetection.calculateElbowAngle s s w = 90) ∧
    (∀ (s e w : Keypoint) (t : ℝ), 0 < t →
      (e.x - s.x ≠ 0 ∨ e.y - s.y ≠ 0) →
      w.x - e.x = t * (e.x - s.x) → w.y - e.y = t * (e.y - s.y) →
      WeightDetection.calculateElbowAngle s e w = 0) := by
  constructor
  · intro s w
    norm_num [WeightDetection.calculateElbowAngle, Real.sqrt_zero]
  · intro s e w t ht hne h1 h2
    simp only [WeightDetection.calculateElbowAngle]
    rw [h1, h2]
    set a := e.x - s.x with ha
    set b := e.y - s.y with hb
    have hq : 0 < a ^ 2 + b ^ 2 := by
      rcases hne with h | h
      · nlinarith [sq_nonneg b, mul_self_pos.mpr h]
      · nlinarith [sq_nonneg a, mul_self_pos.mpr h]
    have hsq : Real.sqrt ((t * a) ^ 2 + (t * b) ^ 2) = t * Real.sqrt (a ^ 2 + b ^ 2) := by
      have e1 : (t * a) ^ 2 + (t * b) ^ 2 = t ^ 2 * (a ^ 2 + b ^ 2) := by ring
      rw [e1, Real.sqrt_mul (sq_nonneg t), Real.sqrt_sq ht.le]
    have hself : Real.sqrt (a ^ 2 + b ^ 2) * Real.sqrt (a ^ 2 + b ^ 2) = a ^ 2 + b ^ 2 :=
      Real.mul_self_sqrt hq.le
    have hden : Real.sqrt (a ^ 2 + b ^ 2) * Real.sqrt ((t * a) ^ 2 + (t * b) ^ 2)
        = t * (a ^ 2 + b ^ 2) := by
      rw [hsq]
      calc Real.sqrt (a ^ 2 + b ^ 2) * (t * Real.sqrt (a ^ 2 + b ^ 2))
          = t * (Real.sqrt (a ^ 2 + b ^ 2) * Real.sqrt (a ^ 2 + b ^ 2)) := by ring
        _ = t * (a ^ 2 + b ^ 2) := by rw [hself]
    have hdpos : (0:ℝ) < t * (a ^ 2 + b ^ 2) := mul_pos ht hq
    have hdot : a * (t * a) + b * (t * b) = t * (a ^ 2 + b ^ 2) := by ring
    rw [if_neg (by rw [hden]; exact ne_of_gt hdpos), hdot, hden,
      div_self (ne_of_gt hdpos), Real.arccos_one, zero_mul]

/-- Witness for C6: the degenerate guard and the collinear case evaluated
at concrete points. -/
theorem elbow_angle_witness :
    WeightDetection.calculateElbowAngle ⟨0, 0, 1⟩ ⟨0, 0, 1⟩ ⟨5, 5, 1⟩ = 90 ∧
    WeightDetection.calculateElbowAngle ⟨0, 0, 1⟩ ⟨0, 1, 1⟩ ⟨0, 3, 1⟩ = 0 :=
  ⟨elbow_angle_degenerate_and_collinear.1 ⟨0, 0, 1⟩ ⟨5, 5, 1⟩,
    elbow_angle_degenerate_and_collinear.2 ⟨0, 0, 1⟩ ⟨0, 1, 1⟩ ⟨0, 3, 1⟩ 2 (by norm_num)
      (Or.inr (by norm_num)) (by norm_num) (by norm_num)⟩

/-- C8: whenever the posture analysis reports neither lifting nor
carrying, the weight estimation is 0 with confidence 0.1; and any input
with fewer than 17 keypoints yields the all-false default posture
analysis, so the same zero result follows and no exception is possible
(the embedding is total). -/
theorem estimator_zero_weight_low_confidence :
    (∀ kps : List Keypoint,
      (WeightDetection.analyzePosture kps).isLifting = false →
      (WeightDetection.analyzePosture kps).isCarrying = false →
      (WeightDetection.estimateWeightFromPosture kps).estimatedWeight = 0 ∧
      (WeightDetection.estimateWeightFromPosture kps).confidence = 0.1) ∧
    (∀ kps : List Keypoint, kps.length < 17 →
      WeightDetection.analyzePosture kps =
        ⟨false, false, WeightDetection.ArmPosition.close, 0,
          WeightDetection.LoadDirection.front⟩) := by
  constructor
  · intro kps h1 h2
    constructor <;> simp [WeightDetection.estimateWeightFromPosture, h1, h2]
  · intro kps h
    unfold WeightDetection.analyzePosture
    rw [if_neg (by omega)]

/-- Witness for C8 at the empty keypoint list. -/
theorem estimator_zero_weight_witness :
    WeightDetection.analyzePosture [] =
      ⟨false, false, WeightDetection.ArmPosition.close, 0,
        WeightDetection.LoadDirection.front⟩ ∧
    (WeightDetection.estimateWeightFromPosture []).estimatedWeight = 0 ∧
    (WeightDetection.estimateWeightFromPosture []).confidence = 0.1 := by
  have h2 := estimator_zero_weight_low_confidence.2 [] (by simp)
  have h1 := estimator_zero_weight_low_confidence.1 [] (by rw [h2]) (by rw [h2])
  exact ⟨h2, h1⟩

/-- C10: whenever `calculateREBA` returns a score, the wrist component
score is exactly 1 and the wristAngle debug field is exactly 15: the
wrist flexion angle is the hard-coded constant 15, which never exceeds
the strict threshold of 15 in `getWristScore`, and no twist flag is ever
passed. -/
theorem reba_wrist_score_constant :
    ∀ (kps : List Keypoint) (r : RebaCalc.REBAScore),
      RebaCalc.calculateREBA kps = some r → r.wrist = 1 ∧ r.wristAngle = 15 := by
  intro kps r h
  unfold RebaCalc.calculateREBA at h
  split at h
  · exact absurd h (by simp)
  · have hr : RebaCalc.rebaFromKeypoints kps = r := Option.some.inj h
    subst hr
    constructor
    · simp only [RebaCalc.rebaFromKeypoints]
      norm_num [RebaCalc.getWristScore, min_def]
    · simp only [RebaCalc.rebaFromKeypoints]
      norm_num [jsRoundR]

/-- Witness for C10 at a concrete 17-keypoint pose. -/
theorem reba_wrist_score_constant_witness :
    (RebaCalc.rebaFromKeypoints kp17).wrist = 1 ∧
    (RebaCalc.rebaFromKeypoints kp17).wristAngle = 15 :=
  reba_wrist_score_constant kp17 (RebaCalc.rebaFromKeypoints kp17)
    (by simp [RebaCalc.calculateREBA, kp17])

/-! Helper lemmas for the weight-adjustment monotonicity claim. -/

/-- The RULA multiplier band chain is monotone in the weight. -/
lemma rula_multiplier_mono (w1 w2 : ℚ) (h : w1 ≤ w2) :
    (if 23 < w1 then (3:ℚ) else if 10 < w1 then 2 else if 5 < w1 then 3/2 else 1) ≤
    (if 23 < w2 then (3:ℚ) else if 10 < w2 then 2 else if 5 < w2 then 3/2 else 1) := by
  split_ifs <;> try norm_num
  all_goals linarith

/-- The REBA multiplier band chain is monotone in the weight. -/
lemma reba_multiplier_mono (w1 w2 : ℚ) (h : w1 ≤ w2) :
    (if w1 ≤ 5 then (1:ℚ) else if w1 ≤ 10 then 11/10 else if w1 ≤ 20 then 13/10
      else if w1 ≤ 40 then 3/2 else 9/5) ≤
    (if w2 ≤ 5 then (1:ℚ) else if w2 ≤ 10 then 11/10 else if w2 ≤ 20 then 13/10
      else if w2 ≤ 40 then 3/2 else 9/5) := by
  split_ifs <;> try norm_num
  all_goals linarith

/-- Each row of the REBA score matrix is non-decreasing. -/
lemma reba_matrix_row_mono : ∀ i : ℕ, i < 12 → ∀ j2 : ℕ, j2 < 12 → ∀ j1 : ℕ, j1 ≤ j2 →
    (WeightDetection.rebaScoreMatrix.getD i []).getD j1 0 ≤
    (WeightDetection.rebaScoreMatrix.getD i []).getD j2 0 := by decide

/-- Each column of the REBA score matrix is non-decreasing. -/
lemma reba_matrix_col_mono : ∀ j : ℕ, j < 12 → ∀ i2 : ℕ, i2 < 12 → ∀ i1 : ℕ, i1 ≤ i2 →
    (WeightDetection.rebaScoreMatrix.getD i1 []).getD j 0 ≤
    (WeightDetection.rebaScoreMatrix.getD i2 []).getD j 0 := by decide

/-- The REBA final-score lookup of the weight-detection module is
monotone in both group scores. -/
lemma getRebaFinalScore_mono (a1 a2 b1 b2 : ℤ) (ha : a1 ≤ a2) (hb : b1 ≤ b2) :
    WeightDetection.getRebaFinalScore a1 b1 ≤ WeightDetection.getRebaFinalScore a2 b2 := by
  simp only [WeightDetection.getRebaFinalScore]
  have hi1 : (min (max (a1 - 1) 0) 11).toNat ≤ (min (max (a2 - 1) 0) 11).toNat := by omega
  have hi2 : (min (max (a2 - 1) 0) 11).toNat < 12 := by omega
  have hi0 : (min (max (a1 - 1) 0) 11).toNat < 12 := by omega
  have hj1 : (min (max (b1 - 1) 0) 11).toNat ≤ (min (max (b2 - 1) 0) 11).toNat := by omega
  have hj2 : (min (max (b2 - 1) 0) 11).toNat < 12 := by omega
  calc (WeightDetection.rebaScoreMatrix.getD (min (max (a1 - 1) 0) 11).toNat []).getD
        (min (max (b1 - 1) 0) 11).toNat 0
      ≤ (WeightDetection.rebaScoreMatrix.getD (min (max (a1 - 1) 0) 11).toNat []).getD
        (min (max (b2 - 1) 0) 11).toNat 0 :=
        reba_matrix_row_mono _ hi0 _ hj2 _ hj1
    _ ≤ (WeightDetection.rebaScoreMatrix.getD (min (max (a2 - 1) 0) 11).toNat []).getD
        (min (max (b2 - 1) 0) 11).toNat 0 :=
        reba_matrix_col_mono _ hj2 _ hi2 _ hi1

/-- The adjusted RULA final score at a nonzero manual weight, written in
terms of the weight. -/
lemma rula_adjusted_final_eq (ru : WeightDetection.RulaScore)
    (est : WeightDetection.WeightEstimation) (w : ℚ) (hw : ¬ w = 0) :
    (WeightDetection.calculateWeightAdjustedRula ru est (some w)).finalScore
      = min 7 (jsCeil ((ru.finalScore : ℚ) *
          (if 23 < w then 3 else if 10 < w then 2 else if 5 < w then 3/2 else 1))) := by
  simp only [WeightDetection.calculateWeightAdjustedRula, jsOrQ, if_neg hw]

/-- The adjusted REBA final score at a nonzero manual weight, written in
terms of the weight. -/
lemma reba_adjusted_final_eq (rb : WeightDetection.RebaBase)
    (est : WeightDetection.WeightEstimation) (w : ℚ) (hw : ¬ w = 0) :
    (WeightDetection.calculateWeightAdjustedReba rb est (some w)).finalScore
      = min 15 (WeightDetection.getRebaFinalScore
          (min 12 (jsRound ((rb.scoreA : ℚ) *
            (if w ≤ 5 then 1 else if w ≤ 10 then 11/10 else if w ≤ 20 then 13/10
              else if w ≤ 40 then 3/2 else 9/5))))
          (min 12 (jsRound ((rb.scoreB : ℚ) *
            (if w ≤ 5 then 1 else if w ≤ 10 then 11/10 else if w ≤ 20 then 13/10
              else if w ≤ 40 then 3/2 else 9/5))))) := by
  simp only [WeightDetection.calculateWeightAdjustedReba, jsOrQ, if_neg hw]

/-- C7: for a fixed base score with non-negative components, the adjusted
RULA final score is non-decreasing in the (positive) manual weight, and
so is the adjusted REBA final score; in particular neither ever decreases
when the weight crosses a band boundary. -/
theorem weight_adjustment_monotone_in_weight :
    (∀ (base : WeightDetection.RulaScore) (est : WeightDetection.WeightEstimation)
      (w1 w2 : ℚ), 0 ≤ base.finalScore → 0 < w1 → w1 ≤ w2 →
      (WeightDetection.calculateWeightAdjustedRula base est (some w1)).finalScore ≤
      (WeightDetection.calculateWeightAdjustedRula base est (some w2)).finalScore) ∧
    (∀ (base : WeightDetection.RebaBase) (est : WeightDetection.WeightEstimation)
      (w1 w2 : ℚ), 0 ≤ base.scoreA → 0 ≤ base.scoreB → 0 < w1 → w1 ≤ w2 →
      (WeightDetection.calculateWeightAdjustedReba base est (some w1)).finalScore ≤
      (WeightDetection.calculateWeightAdjustedReba base est (some w2)).finalScore) := by
  constructor
  · intro base est w1 w2 hf hw1 h12
    have hw2 : (0:ℚ) < w2 := lt_of_lt_of_le hw1 h12
    rw [rula_adjusted_final_eq base est w1 hw1.ne', rula_adjusted_final_eq base est w2 hw2.ne']
    refine min_le_min le_rfl ?_
    simp only [jsCeil]
    refine Int.ceil_le_ceil ?_
    exact mul_le_mul_of_nonneg_left (rula_multiplier_mono w1 w2 h12)
      (by exact_mod_cast hf)
  · intro base est w1 w2 hA hB hw1 h12
    have hw2 : (0:ℚ) < w2 := lt_of_lt_of_le hw1 h12
    rw [reba_adjusted_final_eq base est w1 hw1.ne', reba_adjusted_final_eq base est w2 hw2.ne']
    refine min_le_min le_rfl (getRebaFinalScore_mono _ _ _ _ ?_ ?_)
    · refine min_le_min le_rfl ?_
      simp only [jsRound]
      refine Int.floor_le_floor ?_
      have := mul_le_mul_of_nonneg_left (reba_multiplier_mono w1 w2 h12)
        (show (0:ℚ) ≤ (base.scoreA : ℚ) by exact_mod_cast hA)
      linarith
    · refine min_le_min le_rfl ?_
      simp only [jsRound]
      refine Int.floor_le_floor ?_
      have := mul_le_mul_of_nonneg_left (reba_multiplier_mono w1 w2 h12)
        (show (0:ℚ) ≤ (base.scoreB : ℚ) by exact_mod_cast hB)
      linarith

/-- Witness for C7: concrete weights 4 kg and 30 kg on concrete base
scores. -/
theorem weight_adjustment_monotone_witness :
    (WeightDetection.calculateWeightAdjustedRula sampleRula (sampleEst 0) (some 4)).finalScore ≤
    (WeightDetection.calculateWeightAdjustedRula sampleRula (sampleEst 0) (some 30)).finalScore ∧
    (WeightDetection.calculateWeightAdjustedReba sampleRebaBase (sampleEst 0)
        (some 4)).finalScore ≤
    (WeightDetection.calculateWeightAdjustedReba sampleRebaBase (sampleEst 0)
        (some 30)).finalScore :=
  ⟨weight_adjustment_monotone_in_weight.1 sampleRula (sampleEst 0) 4 30 (by decide)
      (by norm_num) (by norm_num),
    weight_adjustment_monotone_in_weight.2 sampleRebaBase (sampleEst 0) 4 30 (by decide)
      (by decide) (by norm_num) (by norm_num)⟩
